import Mathlib

/-!
Verification of the Application Companion steering-command state machine
(`Application_Companion/application_companion.py`).

The Python class `ApplicationCompanion` is embedded shallowly:

* the enumerations `SteeringCommands`, `EVENT`, `Response` and `STATES`
  become inductive types;
* the mutable instance attributes (`__is_registered`,
  `__ac_registered_component_service`, `__communicator`,
  `__application_manager`, and the four `multiprocessing` queues) become a
  `CompanionState` record;
* interactions with the external collaborators (affinity binder, registry
  proxy, queue transport, Application Manager) are recorded as an ordered
  event trace, and the results the collaborators return are supplied by an
  `Env` oracle (the registry contract is: register returns `OK` or the
  `ERROR` sentinel, update_state returns `OK` or `ERROR`, find_by_id
  returns a handle);
* values pending on the Application-Manager-to-Companion response queue
  are carried in the machine (`mgrResponses`), consumed by blocking
  receives; a receive on an empty queue blocks forever, reported as the
  `blocked` outcome;
* Python exceptions that the code can actually raise and never catches
  (the `TypeError` from a wrong-arity call, the `KeyError` from a failed
  dictionary lookup) become the `raised` outcome.

Logging calls are effect-free and are not modelled.  The proxy-manager
connection made in `__init__` (lines 62-82) is an external collaborator
outside every claim considered here and is not modelled either.
-/

namespace AppCompanion

/-- `SteeringCommands` enum: the lifecycle instructions INIT, START, END. -/
inductive SteeringCommands where
  | INIT
  | START
  | END
deriving DecidableEq

/-- `EVENT` enum: out-of-band signals. -/
inductive EVENT where
  | FATAL
  | STATE_UPDATE_FATAL
deriving DecidableEq

/-- `Response` enum: the OK / ERROR sentinels. -/
inductive Response where
  | OK
  | ERROR
deriving DecidableEq

/-- `STATES` enum: the lifecycle states recorded in the registry. -/
inductive STATES where
  | READY
  | SYNCHRONIZING
  | RUNNING
  | TERMINATED
deriving DecidableEq

/-- A registration handle as returned by the registry's `find_by_id`:
an opaque service-component record (the code reads its `id` and `name`
attributes only in debug log lines). -/
structure ServiceComponent where
  id : Nat
  name : String
deriving DecidableEq

/-- A value carried on one of the queues: a bare `Response` sentinel, the
INIT-specific payload (process id plus minimum step size), an `EVENT`, or
a `SteeringCommands` value.  All four queues share this value space. -/
inductive MsgVal where
  | resp (r : Response)
  | payload (pid : Nat) (stepSize : Nat)
  | event (e : EVENT)
  | cmd (c : SteeringCommands)
deriving DecidableEq

/-- Observable events of one Companion run, in program order:
calls to the external collaborators and the queue sends/receives. -/
inductive Ev where
  | affinitySet (r : Response)
  | regRegister (s : STATES) (r : Response)
  | flagSet
  | findById
  | regUpdate (s : STATES) (r : Response)
  | mgrConstruct
  | mgrStart
  | mgrSend (c : SteeringCommands)
  | orchSend (v : MsgVal)
  | recvCmd (v : MsgVal)
  | sigterm
deriving DecidableEq

/-- The mutable instance attributes of `ApplicationCompanion`.  The four
queue fields record that the corresponding `multiprocessing` queue object
exists; `application_manager` records that the `ApplicationManager`
object has been constructed (it is `None` until then), `manager_started`
that its `start()` has been called. -/
structure CompanionState where
  application_companion_in_queue : Bool
  application_companion_out_queue : Bool
  application_manager_in_queue : Bool
  application_manager_out_queue : Bool
  is_registered : Bool
  ac_registered_component_service : Option ServiceComponent
  communicator : Bool
  application_manager : Bool
  manager_started : Bool
deriving DecidableEq

/-- A Companion machine: its instance state, the trace of events so far,
and the values pending on the Application-Manager response queue. -/
structure Machine where
  st : CompanionState
  tr : List Ev
  mgrResponses : List MsgVal
deriving DecidableEq

/-- Results returned by the external collaborators, fixed for a run:
the affinity binder's result, the registry's `register` result, the
handle `find_by_id` returns, and the registry's `update_state` result
for each requested state. -/
structure Env where
  affinityResult : Response
  registerResult : Response
  findByIdResult : ServiceComponent
  updateRes : STATES → Response

/-- Unhandled Python exceptions the code can raise: the `TypeError` from
calling `__send_response_to_orchestrator` with a surplus positional
argument, and the `KeyError` from looking up an unknown key in the
command dispatch dictionary. -/
inductive PyError where
  | typeError
  | keyError
deriving DecidableEq

/-- Outcome of running a handler or the dispatch loop: a returned
`Response`, an unhandled exception propagating out, or blocking forever
on an empty queue. -/
inductive HandlerOutcome where
  | ret (r : Response)
  | raised (e : PyError)
  | blocked
deriving DecidableEq

/-- `__init__` (lines 36-94): creates the two Orchestrator-facing queues
and the two Manager-facing queues, leaves `__is_registered` unset,
`__communicator`, `__ac_registered_component_service` and
`__application_manager` set to `None`.  `pending` is the stream of values
the Application Manager will place on its response queue. -/
def companion_init (pending : List MsgVal) : Machine :=
  { st := { application_companion_in_queue := true
            application_companion_out_queue := true
            application_manager_in_queue := true
            application_manager_out_queue := true
            is_registered := false
            ac_registered_component_service := none
            communicator := false
            application_manager := false
            manager_started := false }
    tr := []
    mgrResponses := pending }

/-- `__send_response_to_orchestrator(self, response)` (lines 207-225):
sends `response` on the Companion's Orchestrator-facing out queue. -/
def send_response_to_orchestrator (m : Machine) (response : MsgVal) : Machine :=
  { m with tr := m.tr ++ [Ev.orchSend response] }

/-- `__send_command_to_application_manager(self, command)` (lines
258-262): sends `command` on the Application Manager's in queue. -/
def send_command_to_application_manager (m : Machine) (command : SteeringCommands) : Machine :=
  { m with tr := m.tr ++ [Ev.mgrSend command] }

/-- `__receive_response_from_application_manager` (lines 227-231) and the
inlined `communicator.receive` in `__execute_end_command` (lines
343-344): blocking receive from the Application Manager's out queue;
`none` when the queue is empty (the call would block forever). -/
def receive_response_from_application_manager (m : Machine) : Option (MsgVal × Machine) :=
  match m.mgrResponses with
  | [] => none
  | v :: rest => some (v, { m with mgrResponses := rest })

/-- `__command_execution_response(self, response)` (lines 233-256):
classifies the Application Manager's response; only the literal `ERROR`
sentinel is a failure, everything else (including the INIT payload) is
success. -/
def command_execution_response (response : MsgVal) : Response :=
  if response = MsgVal.resp Response.ERROR then Response.ERROR else Response.OK

/-- `__update_local_state(self, new_state)` (lines 180-205): calls the
registry proxy's `update_state` on the stored handle and returns its
return code. -/
def update_local_state (env : Env) (m : Machine) (new_state : STATES) : Response × Machine :=
  let rc := env.updateRes new_state
  (rc, { m with tr := m.tr ++ [Ev.regUpdate new_state rc] })

/-- `__respond_with_state_update_error` (lines 161-178).  Its body logs a
RuntimeError and then executes
`self.__send_response_to_orchestrator(EVENT.STATE_UPDATE_FATAL,
self.__application_companion_out_queue)` (lines 174-176).  The method
`__send_response_to_orchestrator` (line 207) has the single parameter
`response` besides `self`, so this call passes one surplus positional
argument and raises `TypeError` at the call itself: nothing is sent on
any queue, and the `return Response.ERROR` on line 178 is never reached.
The `TypeError` is caught nowhere in the class. -/
def respond_with_state_update_error (m : Machine) : HandlerOutcome × Machine :=
  (HandlerOutcome.raised PyError.typeError, m)

/-- `__terminate_with_error` (lines 352-358): raises SIGTERM at the own
process and returns `ERROR`. -/
def terminate_with_error (m : Machine) : Response × Machine :=
  (Response.ERROR, { m with tr := m.tr ++ [Ev.sigterm] })

/-- `__handle_fatal_event` (lines 360-369): logs and returns `ERROR`;
touches neither the registry nor any Manager queue. -/
def handle_fatal_event (m : Machine) : HandlerOutcome × Machine :=
  (HandlerOutcome.ret Response.ERROR, m)

/-- `__execute_init_command` (lines 264-305): update local state to
SYNCHRONIZING (on `ERROR` divert to `__respond_with_state_update_error`),
construct the `ApplicationManager` passing it the two Manager queues made
in `__init__`, start it, send INIT, block for the response, forward the
response to the Orchestrator, classify it. -/
def execute_init_command (env : Env) (m : Machine) : HandlerOutcome × Machine :=
  let um := update_local_state env m STATES.SYNCHRONIZING
  if um.1 = Response.ERROR then
    respond_with_state_update_error um.2
  else
    let m2 := { um.2 with st := { um.2.st with application_manager := true }
                          tr := um.2.tr ++ [Ev.mgrConstruct] }
    let m3 := { m2 with st := { m2.st with manager_started := true }
                        tr := m2.tr ++ [Ev.mgrStart] }
    let m4 := send_command_to_application_manager m3 SteeringCommands.INIT
    match receive_response_from_application_manager m4 with
    | none => (HandlerOutcome.blocked, m4)
    | some (response, m5) =>
      (HandlerOutcome.ret (command_execution_response response),
       send_response_to_orchestrator m5 response)

/-- `__execute_start_command` (lines 307-327): update local state to
RUNNING (on `ERROR` divert to `__respond_with_state_update_error`), send
START to the Manager, block for the response, forward it, classify it. -/
def execute_start_command (env : Env) (m : Machine) : HandlerOutcome × Machine :=
  let um := update_local_state env m STATES.RUNNING
  if um.1 = Response.ERROR then
    respond_with_state_update_error um.2
  else
    let m2 := send_command_to_application_manager um.2 SteeringCommands.START
    match receive_response_from_application_manager m2 with
    | none => (HandlerOutcome.blocked, m2)
    | some (response, m3) =>
      (HandlerOutcome.ret (command_execution_response response),
       send_response_to_orchestrator m3 response)

/-- `__execute_end_command` (lines 329-350): update local state to
TERMINATED (on `ERROR` divert to `__respond_with_state_update_error`),
send END to the Manager, block for the response, forward it, classify
it. -/
def execute_end_command (env : Env) (m : Machine) : HandlerOutcome × Machine :=
  let um := update_local_state env m STATES.TERMINATED
  if um.1 = Response.ERROR then
    respond_with_state_update_error um.2
  else
    let m2 := send_command_to_application_manager um.2 SteeringCommands.END
    match receive_response_from_application_manager m2 with
    | none => (HandlerOutcome.blocked, m2)
    | some (response, m3) =>
      (HandlerOutcome.ret (command_execution_response response),
       send_response_to_orchestrator m3 response)

/-- The values of the `command_execution_choices` dictionary (lines
380-385), as a tag for which bound method is stored. -/
inductive Handler where
  | hInit
  | hStart
  | hEnd
  | hFatal
deriving DecidableEq

/-- The `command_execution_choices` dictionary lookup (lines 380-385 and
395): the four keys `SteeringCommands.INIT/START/END` and `EVENT.FATAL`
map to their handlers; any other value misses (`KeyError`). -/
def command_execution_choices : MsgVal → Option Handler
  | MsgVal.cmd SteeringCommands.INIT => some Handler.hInit
  | MsgVal.cmd SteeringCommands.START => some Handler.hStart
  | MsgVal.cmd SteeringCommands.END => some Handler.hEnd
  | MsgVal.event EVENT.FATAL => some Handler.hFatal
  | _ => none

/-- Invoke the bound method a dispatch-table entry holds. -/
def runHandler (h : Handler) (env : Env) (m : Machine) : HandlerOutcome × Machine :=
  match h with
  | Handler.hInit => execute_init_command env m
  | Handler.hStart => execute_start_command env m
  | Handler.hEnd => execute_end_command env m
  | Handler.hFatal => handle_fatal_event m

/-- The blocking receive of the next steering command at the top of each
loop iteration (lines 390-392). -/
def recvM (m : Machine) (v : MsgVal) : Machine :=
  { m with tr := m.tr ++ [Ev.recvCmd v] }

/-- `__fetch_and_execute_steering_commands` (lines 371-418): receive the
next inbound value, look it up in the dispatch dictionary (a miss raises
`KeyError`), run the handler; a handler result of `ERROR` ends the loop
through `__terminate_with_error`; otherwise a just-executed `END` command
ends the loop with `OK`, and any other command continues the loop.
`inbound` is the stream of values on the Companion's in queue; an
exhausted stream means the receive blocks forever. -/
def fetch_and_execute_steering_commands (env : Env) (m : Machine) :
    List MsgVal → HandlerOutcome × Machine
  | [] => (HandlerOutcome.blocked, m)
  | v :: rest =>
    let m0 := recvM m v
    match command_execution_choices v with
    | none => (HandlerOutcome.raised PyError.keyError, m0)
    | some h =>
      match runHandler h env m0 with
      | (HandlerOutcome.ret r, m1) =>
        if r = Response.ERROR then
          let t := terminate_with_error m1
          (HandlerOutcome.ret t.1, t.2)
        else if v = MsgVal.cmd SteeringCommands.END then
          (HandlerOutcome.ret Response.OK, m1)
        else
          fetch_and_execute_steering_commands env m1 rest
      | (out, m1) => (out, m1)

/-- `__set_up_runtime` (lines 100-159): set affinity (result only
logged), register with the registry with initial state READY (on the
`ERROR` sentinel abort with `ERROR`), set the `__is_registered` event
flag, store the `find_by_id` handle without inspecting it, create the
`CommunicatorQueue`. -/
def set_up_runtime (env : Env) (m : Machine) : Response × Machine :=
  let m1 := { m with tr := m.tr ++ [Ev.affinitySet env.affinityResult] }
  let m2 := { m1 with tr := m1.tr ++ [Ev.regRegister STATES.READY env.registerResult] }
  if env.registerResult = Response.ERROR then
    (Response.ERROR, m2)
  else
    let m3 := { m2 with st := { m2.st with is_registered := true }
                        tr := m2.tr ++ [Ev.flagSet] }
    let m4 := { m3 with st := { m3.st with
                  ac_registered_component_service := some env.findByIdResult }
                        tr := m3.tr ++ [Ev.findById] }
    let m5 := { m4 with st := { m4.st with communicator := true } }
    (Response.OK, m5)

/-- `run` (lines 420-434): bootstrap, and on bootstrap failure return
`ERROR` without entering the dispatch loop; otherwise run the loop. -/
def run (env : Env) (m : Machine) (inbound : List MsgVal) : HandlerOutcome × Machine :=
  let su := set_up_runtime env m
  if su.1 = Response.ERROR then
    (HandlerOutcome.ret Response.ERROR, su.2)
  else
    fetch_and_execute_steering_commands env su.2 inbound

/-- The state each steering command's handler passes to `update_state`. -/
def targetState : SteeringCommands → STATES
  | SteeringCommands.INIT => STATES.SYNCHRONIZING
  | SteeringCommands.START => STATES.RUNNING
  | SteeringCommands.END => STATES.TERMINATED

/-- The dispatch-table tag of a steering command's handler. -/
def handlerOf : SteeringCommands → Handler
  | SteeringCommands.INIT => Handler.hInit
  | SteeringCommands.START => Handler.hStart
  | SteeringCommands.END => Handler.hEnd

/-- The change a steering command's handler makes to the instance state:
only INIT touches it (constructing and starting the Manager). -/
def stAfter : SteeringCommands → CompanionState → CompanionState
  | SteeringCommands.INIT, s => { s with application_manager := true, manager_started := true }
  | SteeringCommands.START, s => s
  | SteeringCommands.END, s => s

/-- The events a steering command's handler emits up to and including
the send of the command to the Manager (before it blocks for the
Manager's response). -/
def preSendEvs (env : Env) : SteeringCommands → List Ev
  | SteeringCommands.INIT =>
    [Ev.regUpdate STATES.SYNCHRONIZING (env.updateRes STATES.SYNCHRONIZING),
     Ev.mgrConstruct, Ev.mgrStart, Ev.mgrSend SteeringCommands.INIT]
  | SteeringCommands.START =>
    [Ev.regUpdate STATES.RUNNING (env.updateRes STATES.RUNNING),
     Ev.mgrSend SteeringCommands.START]
  | SteeringCommands.END =>
    [Ev.regUpdate STATES.TERMINATED (env.updateRes STATES.TERMINATED),
     Ev.mgrSend SteeringCommands.END]

/-- States durably recorded in the registry: the initial state of a
successful `register` call and the argument of every `update_state` call
that returned `OK`. -/
def registryWrites (tr : List Ev) : List STATES :=
  tr.filterMap fun e =>
    match e with
    | Ev.regRegister s Response.OK => some s
    | Ev.regUpdate s Response.OK => some s
    | _ => none

/-- The states passed to `update_state`, whether or not the call
succeeded. -/
def updateAttempts (tr : List Ev) : List STATES :=
  tr.filterMap fun e =>
    match e with
    | Ev.regUpdate s _ => some s
    | _ => none

/-- The values sent on the Companion-to-Orchestrator out queue, in
order. -/
def orchestratorOut (tr : List Ev) : List MsgVal :=
  tr.filterMap fun e =>
    match e with
    | Ev.orchSend v => some v
    | _ => none

/-- The commands sent on the Companion-to-Manager in queue, in order. -/
def managerIn (tr : List Ev) : List SteeringCommands :=
  tr.filterMap fun e =>
    match e with
    | Ev.mgrSend c => some c
    | _ => none

/-- A sample registry handle. -/
def sampleService : ServiceComponent := { id := 123, name := "nest" }

/-- Environment in which every external call succeeds. -/
def envAllOK : Env :=
  { affinityResult := Response.OK
    registerResult := Response.OK
    findByIdResult := sampleService
    updateRes := fun _ => Response.OK }

/-- Environment in which every `update_state` call fails. -/
def envUpdateFails : Env :=
  { envAllOK with updateRes := fun _ => Response.ERROR }

/-- Environment in which the `register` call fails. -/
def envRegisterFails : Env :=
  { envAllOK with registerResult := Response.ERROR }

/-- `ERROR` is the only `Response` apart from `OK`. -/
theorem resp_eq_ok (r : Response) (h : r ≠ Response.ERROR) : r = Response.OK := by
  cases r
  · rfl
  · exact absurd rfl h

/-- Unfolding lemma for one iteration of the dispatch loop. -/
theorem fetch_cons (env : Env) (m : Machine) (v : MsgVal) (rest : List MsgVal) :
    fetch_and_execute_steering_commands env m (v :: rest) =
      match command_execution_choices v with
      | none => (HandlerOutcome.raised PyError.keyError, recvM m v)
      | some h =>
        match runHandler h env (recvM m v) with
        | (HandlerOutcome.ret r, m1) =>
          if r = Response.ERROR then
            (HandlerOutcome.ret Response.ERROR, { m1 with tr := m1.tr ++ [Ev.sigterm] })
          else if v = MsgVal.cmd SteeringCommands.END then
            (HandlerOutcome.ret Response.OK, m1)
          else
            fetch_and_execute_steering_commands env m1 rest
        | (out, m1) => (out, m1) := by
  rw [fetch_and_execute_steering_commands]
  rcases command_execution_choices v with _ | h
  · rfl
  · rcases runHandler h env (recvM m v) with ⟨out, m1⟩
    cases out <;> rfl

/-- Loop iteration on a value missing from the dispatch table. -/
theorem fetch_cons_none (env : Env) (m : Machine) (v : MsgVal) (rest : List MsgVal)
    (hcv : command_execution_choices v = none) :
    fetch_and_execute_steering_commands env m (v :: rest) =
      (HandlerOutcome.raised PyError.keyError, recvM m v) := by
  simp only [fetch_cons, hcv]

/-- Loop iteration whose handler returns a `Response`. -/
theorem fetch_cons_ret (env : Env) (m : Machine) (v : MsgVal) (rest : List MsgVal)
    (h : Handler) (r : Response) (m1 : Machine)
    (hcv : command_execution_choices v = some h)
    (hrh : runHandler h env (recvM m v) = (HandlerOutcome.ret r, m1)) :
    fetch_and_execute_steering_commands env m (v :: rest) =
      (if r = Response.ERROR then
        (HandlerOutcome.ret Response.ERROR, { m1 with tr := m1.tr ++ [Ev.sigterm] })
      else if v = MsgVal.cmd SteeringCommands.END then
        (HandlerOutcome.ret Response.OK, m1)
      else
        fetch_and_execute_steering_commands env m1 rest) := by
  simp only [fetch_cons, hcv, hrh]

/-- Loop iteration whose handler raises an exception. -/
theorem fetch_cons_raised (env : Env) (m : Machine) (v : MsgVal) (rest : List MsgVal)
    (h : Handler) (e : PyError) (m1 : Machine)
    (hcv : command_execution_choices v = some h)
    (hrh : runHandler h env (recvM m v) = (HandlerOutcome.raised e, m1)) :
    fetch_and_execute_steering_commands env m (v :: rest) =
      (HandlerOutcome.raised e, m1) := by
  simp only [fetch_cons, hcv, hrh]

/-- Loop iteration whose handler blocks forever. -/
theorem fetch_cons_blocked (env : Env) (m : Machine) (v : MsgVal) (rest : List MsgVal)
    (h : Handler) (m1 : Machine)
    (hcv : command_execution_choices v = some h)
    (hrh : runHandler h env (recvM m v) = (HandlerOutcome.blocked, m1)) :
    fetch_and_execute_steering_commands env m (v :: rest) =
      (HandlerOutcome.blocked, m1) := by
  simp only [fetch_cons, hcv, hrh]

/-- Bootstrap result when `register` succeeds. -/
theorem set_up_runtime_ok_eq (env : Env) (m : Machine)
    (h : env.registerResult ≠ Response.ERROR) :
    set_up_runtime env m =
      (Response.OK,
       { st := { m.st with is_registered := true
                           ac_registered_component_service := some env.findByIdResult
                           communicator := true }
         tr := m.tr ++ [Ev.affinitySet env.affinityResult,
                        Ev.regRegister STATES.READY env.registerResult,
                        Ev.flagSet, Ev.findById]
         mgrResponses := m.mgrResponses }) := by
  simp [set_up_runtime, resp_eq_ok _ h]

/-- Bootstrap result when `register` fails. -/
theorem set_up_runtime_error_eq (env : Env) (m : Machine)
    (h : env.registerResult = Response.ERROR) :
    set_up_runtime env m =
      (Response.ERROR,
       { m with tr := m.tr ++ [Ev.affinitySet env.affinityResult,
                               Ev.regRegister STATES.READY Response.ERROR] }) := by
  simp [set_up_runtime, h]

/-- Every handler only appends events to the trace, appends neither
`flagSet` nor `findById`, and leaves `is_registered` unchanged. -/
theorem runHandler_extends (h : Handler) (env : Env) (m : Machine) :
    ∃ t, (runHandler h env m).2.tr = m.tr ++ t ∧
      (∀ e ∈ t, e ≠ Ev.flagSet ∧ e ≠ Ev.findById) ∧
      (runHandler h env m).2.st.is_registered = m.st.is_registered := by
  cases h with
  | hInit =>
    by_cases hupd : env.updateRes STATES.SYNCHRONIZING = Response.ERROR
    · refine ⟨[Ev.regUpdate STATES.SYNCHRONIZING Response.ERROR], ?_, ?_, ?_⟩ <;>
        simp [runHandler, execute_init_command, update_local_state, hupd,
          respond_with_state_update_error]
    · rcases hmr : m.mgrResponses with _ | ⟨r, rest⟩
      · refine ⟨[Ev.regUpdate STATES.SYNCHRONIZING (env.updateRes STATES.SYNCHRONIZING),
          Ev.mgrConstruct, Ev.mgrStart, Ev.mgrSend SteeringCommands.INIT], ?_, ?_, ?_⟩ <;>
          simp [runHandler, execute_init_command, update_local_state, hupd,
            send_command_to_application_manager,
            receive_response_from_application_manager, hmr]
      · refine ⟨[Ev.regUpdate STATES.SYNCHRONIZING (env.updateRes STATES.SYNCHRONIZING),
          Ev.mgrConstruct, Ev.mgrStart, Ev.mgrSend SteeringCommands.INIT,
          Ev.orchSend r], ?_, ?_, ?_⟩ <;>
          simp [runHandler, execute_init_command, update_local_state, hupd,
            send_command_to_application_manager,
            receive_response_from_application_manager, hmr,
            send_response_to_orchestrator]
  | hStart =>
    by_cases hupd : env.updateRes STATES.RUNNING = Response.ERROR
    · refine ⟨[Ev.regUpdate STATES.RUNNING Response.ERROR], ?_, ?_, ?_⟩ <;>
        simp [runHandler, execute_start_command, update_local_state, hupd,
          respond_with_state_update_error]
    · rcases hmr : m.mgrResponses with _ | ⟨r, rest⟩
      · refine ⟨[Ev.regUpdate STATES.RUNNING (env.updateRes STATES.RUNNING),
          Ev.mgrSend SteeringCommands.START], ?_, ?_, ?_⟩ <;>
          simp [runHandler, execute_start_command, update_local_state, hupd,
            send_command_to_application_manager,
            receive_response_from_application_manager, hmr]
      · refine ⟨[Ev.regUpdate STATES.RUNNING (env.updateRes STATES.RUNNING),
          Ev.mgrSend SteeringCommands.START, Ev.orchSend r], ?_, ?_, ?_⟩ <;>
          simp [runHandler, execute_start_command, update_local_state, hupd,
            send_command_to_application_manager,
            receive_response_from_application_manager, hmr,
            send_response_to_orchestrator]
  | hEnd =>
    by_cases hupd : env.updateRes STATES.TERMINATED = Response.ERROR
    · refine ⟨[Ev.regUpdate STATES.TERMINATED Response.ERROR], ?_, ?_, ?_⟩ <;>
        simp [runHandler, execute_end_command, update_local_state, hupd,
          respond_with_state_update_error]
    · rcases hmr : m.mgrResponses with _ | ⟨r, rest⟩
      · refine ⟨[Ev.regUpdate STATES.TERMINATED (env.updateRes STATES.TERMINATED),
          Ev.mgrSend SteeringCommands.END], ?_, ?_, ?_⟩ <;>
          simp [runHandler, execute_end_command, update_local_state, hupd,
            send_command_to_application_manager,
            receive_response_from_application_manager, hmr]
      · refine ⟨[Ev.regUpdate STATES.TERMINATED (env.updateRes STATES.TERMINATED),
          Ev.mgrSend SteeringCommands.END, Ev.orchSend r], ?_, ?_, ?_⟩ <;>
          simp [runHandler, execute_end_command, update_local_state, hupd,
            send_command_to_application_manager,
            receive_response_from_application_manager, hmr,
            send_response_to_orchestrator]
  | hFatal =>
    exact ⟨[], by simp [runHandler, handle_fatal_event], by simp,
      by simp [runHandler, handle_fatal_event]⟩

/-- The dispatch loop only appends events, appends neither `flagSet` nor
`findById`, and leaves `is_registered` unchanged. -/
theorem fetch_extends (env : Env) (inbound : List MsgVal) : ∀ m : Machine,
    ∃ t, (fetch_and_execute_steering_commands env m inbound).2.tr = m.tr ++ t ∧
      (∀ e ∈ t, e ≠ Ev.flagSet ∧ e ≠ Ev.findById) ∧
      (fetch_and_execute_steering_commands env m inbound).2.st.is_registered =
        m.st.is_registered := by
  induction inbound with
  | nil =>
    intro m
    exact ⟨[], by simp [fetch_and_execute_steering_commands], by simp,
      by simp [fetch_and_execute_steering_commands]⟩
  | cons v rest ih =>
    intro m
    rcases hcv : command_execution_choices v with _ | h
    · simp only [fetch_cons, hcv]
      exact ⟨[Ev.recvCmd v], by simp [recvM], by simp, by simp [recvM]⟩
    · obtain ⟨t1, ht1, he1, hr1⟩ := runHandler_extends h env (recvM m v)
      rcases hrh : runHandler h env (recvM m v) with ⟨out, m1⟩
      rw [hrh] at ht1 hr1
      simp only [recvM] at ht1 hr1
      simp only [fetch_cons, hcv, hrh]
      cases out with
      | ret r =>
        by_cases hr : r = Response.ERROR
        · subst hr
          refine ⟨Ev.recvCmd v :: (t1 ++ [Ev.sigterm]), ?_, ?_, ?_⟩
          · simp [ht1]
          · intro e he
            rcases List.mem_cons.mp he with rfl | he
            · exact ⟨by simp, by simp⟩
            · rcases List.mem_append.mp he with he | he
              · exact he1 e he
              · obtain rfl := List.mem_singleton.mp he
                exact ⟨by simp, by simp⟩
          · simpa using hr1
        · by_cases hv : v = MsgVal.cmd SteeringCommands.END
          · subst hv
            refine ⟨Ev.recvCmd (MsgVal.cmd SteeringCommands.END) :: t1, ?_, ?_, ?_⟩
            · simp [hr, ht1]
            · intro e he
              rcases List.mem_cons.mp he with rfl | he
              · exact ⟨by simp, by simp⟩
              · exact he1 e he
            · simpa [hr] using hr1
          · obtain ⟨t2, ht2, he2, hr2⟩ := ih m1
            refine ⟨Ev.recvCmd v :: (t1 ++ t2), ?_, ?_, ?_⟩
            · simp [hr, hv, ht2, ht1]
            · intro e he
              rcases List.mem_cons.mp he with rfl | he
              · exact ⟨by simp, by simp⟩
              · rcases List.mem_append.mp he with he | he
                · exact he1 e he
                · exact he2 e he
            · simp [hr, hv, hr2, hr1]
      | raised e =>
        refine ⟨Ev.recvCmd v :: t1, ?_, ?_, ?_⟩
        · simpa using ht1
        · intro e' he'
          rcases List.mem_cons.mp he' with rfl | he'
          · exact ⟨by simp, by simp⟩
          · exact he1 e' he'
        · simpa using hr1
      | blocked =>
        refine ⟨Ev.recvCmd v :: t1, ?_, ?_, ?_⟩
        · simpa using ht1
        · intro e' he'
          rcases List.mem_cons.mp he' with rfl | he'
          · exact ⟨by simp, by simp⟩
          · exact he1 e' he'
        · simpa using hr1

/-- C1: the claim states that on a failed state update the handler sends
exactly one `STATE_UPDATE_FATAL` on the Orchestrator-facing out queue,
never contacts the Manager, and returns `ERROR`.  The code instead
raises `TypeError` inside `__respond_with_state_update_error` (the call
on lines 174-176 passes a surplus positional argument to
`__send_response_to_orchestrator`), so nothing is sent on the
Orchestrator-facing queue and no `ERROR` is returned: this theorem
evaluates the code on that path, for each of the three commands. -/
theorem C1_state_update_failure_raises (env : Env) (m : Machine) (c : SteeringCommands)
    (h : env.updateRes (targetState c) = Response.ERROR) :
    runHandler (handlerOf c) env m =
      (HandlerOutcome.raised PyError.typeError,
       { m with tr := m.tr ++ [Ev.regUpdate (targetState c) Response.ERROR] }) ∧
    orchestratorOut (runHandler (handlerOf c) env m).2.tr = orchestratorOut m.tr ∧
    managerIn (runHandler (handlerOf c) env m).2.tr = managerIn m.tr := by
  cases c <;>
    simp_all [runHandler, handlerOf, targetState, execute_init_command,
      execute_start_command, execute_end_command, update_local_state,
      respond_with_state_update_error, orchestratorOut, managerIn]

/-- C1 witness: the INIT handler under an environment whose state
updates fail. -/
theorem C1_state_update_failure_raises_witness :
    runHandler (handlerOf SteeringCommands.INIT) envUpdateFails (companion_init []) =
      (HandlerOutcome.raised PyError.typeError,
       { companion_init [] with
         tr := (companion_init []).tr ++
           [Ev.regUpdate (targetState SteeringCommands.INIT) Response.ERROR] }) :=
  (C1_state_update_failure_raises envUpdateFails (companion_init [])
    SteeringCommands.INIT rfl).1

/-- C2 counterexample: the claim states that the Manager's two channels
do not exist before the INIT handler executes; but immediately after
`__init__` (trace still empty, so no command has executed) both Manager
queues already exist — they are created on lines 56-58 of `__init__`. -/
theorem C2_channels_exist_before_init :
    (companion_init []).st.application_manager_in_queue = true ∧
    (companion_init []).st.application_manager_out_queue = true ∧
    (companion_init []).tr = [] :=
  ⟨rfl, rfl, rfl⟩

/-- C2 (amended): the Manager *process* does not exist before INIT
(`__application_manager` is `None` after construction), and the INIT
handler constructs and starts it before sending the INIT command to the
Manager, as the explicit event order shows; the two Manager channels,
however, already exist from Companion construction. -/
theorem C2_manager_process_created_at_init :
    (companion_init []).st.application_manager = false ∧
    ∀ (env : Env) (m : Machine) (r : MsgVal) (rest : List MsgVal),
      env.updateRes STATES.SYNCHRONIZING ≠ Response.ERROR →
      m.mgrResponses = r :: rest →
      execute_init_command env m =
        (HandlerOutcome.ret (command_execution_response r),
         { st := { m.st with application_manager := true, manager_started := true }
           tr := m.tr ++
             [Ev.regUpdate STATES.SYNCHRONIZING (env.updateRes STATES.SYNCHRONIZING),
              Ev.mgrConstruct, Ev.mgrStart, Ev.mgrSend SteeringCommands.INIT,
              Ev.orchSend r]
           mgrResponses := rest }) := by
  refine ⟨rfl, ?_⟩
  intro env m r rest hupd hmgr
  have h2 : env.updateRes STATES.SYNCHRONIZING = Response.OK := resp_eq_ok _ hupd
  simp [execute_init_command, update_local_state, h2,
    send_command_to_application_manager, receive_response_from_application_manager,
    send_response_to_orchestrator, hmgr]

/-- C2 witness: a concrete INIT execution in the all-OK environment. -/
theorem C2_manager_process_created_at_init_witness :
    execute_init_command envAllOK (companion_init [MsgVal.resp Response.OK]) =
      (HandlerOutcome.ret (command_execution_response (MsgVal.resp Response.OK)),
       { st := { (companion_init [MsgVal.resp Response.OK]).st with
                 application_manager := true, manager_started := true }
         tr := (companion_init [MsgVal.resp Response.OK]).tr ++
           [Ev.regUpdate STATES.SYNCHRONIZING (envAllOK.updateRes STATES.SYNCHRONIZING),
            Ev.mgrConstruct, Ev.mgrStart, Ev.mgrSend SteeringCommands.INIT,
            Ev.orchSend (MsgVal.resp Response.OK)]
         mgrResponses := [] }) :=
  C2_manager_process_created_at_init.2 envAllOK (companion_init [MsgVal.resp Response.OK])
    (MsgVal.resp Response.OK) [] (by decide) rfl

/-- C3: for a run whose inbound sequence is INIT, START, END, in which
registration and every state update succeed and every Manager response
is a non-`ERROR` value, the states recorded in the registry are exactly
READY (at registration), SYNCHRONIZING, RUNNING, TERMINATED, and the
command loop returns `OK`. -/
theorem C3_happy_path_states (env : Env) (r1 r2 r3 : MsgVal) (rest : List MsgVal)
    (hreg : env.registerResult ≠ Response.ERROR)
    (h1 : env.updateRes STATES.SYNCHRONIZING ≠ Response.ERROR)
    (h2 : env.updateRes STATES.RUNNING ≠ Response.ERROR)
    (h3 : env.updateRes STATES.TERMINATED ≠ Response.ERROR)
    (e1 : r1 ≠ MsgVal.resp Response.ERROR)
    (e2 : r2 ≠ MsgVal.resp Response.ERROR)
    (e3 : r3 ≠ MsgVal.resp Response.ERROR) :
    (run env (companion_init (r1 :: r2 :: r3 :: rest))
        [MsgVal.cmd SteeringCommands.INIT, MsgVal.cmd SteeringCommands.START,
         MsgVal.cmd SteeringCommands.END]).1 = HandlerOutcome.ret Response.OK ∧
    registryWrites
      (run env (companion_init (r1 :: r2 :: r3 :: rest))
        [MsgVal.cmd SteeringCommands.INIT, MsgVal.cmd SteeringCommands.START,
         MsgVal.cmd SteeringCommands.END]).2.tr =
      [STATES.READY, STATES.SYNCHRONIZING, STATES.RUNNING, STATES.TERMINATED] := by
  have hreg' := resp_eq_ok _ hreg
  have h1' := resp_eq_ok _ h1
  have h2' := resp_eq_ok _ h2
  have h3' := resp_eq_ok _ h3
  constructor <;>
    simp [run, set_up_runtime, hreg', fetch_and_execute_steering_commands,
      command_execution_choices, runHandler, recvM,
      execute_init_command, execute_start_command, execute_end_command,
      update_local_state, h1', h2', h3',
      send_command_to_application_manager, receive_response_from_application_manager,
      send_response_to_orchestrator, command_execution_response, e1, e2, e3,
      companion_init, registryWrites]

/-- C3 witness: the end-to-end scenario with Manager responses
payload(123, 1), OK, OK. -/
theorem C3_happy_path_states_witness :
    (run envAllOK (companion_init
        [MsgVal.payload 123 1, MsgVal.resp Response.OK, MsgVal.resp Response.OK])
        [MsgVal.cmd SteeringCommands.INIT, MsgVal.cmd SteeringCommands.START,
         MsgVal.cmd SteeringCommands.END]).1 = HandlerOutcome.ret Response.OK ∧
    registryWrites
      (run envAllOK (companion_init
        [MsgVal.payload 123 1, MsgVal.resp Response.OK, MsgVal.resp Response.OK])
        [MsgVal.cmd SteeringCommands.INIT, MsgVal.cmd SteeringCommands.START,
         MsgVal.cmd SteeringCommands.END]).2.tr =
      [STATES.READY, STATES.SYNCHRONIZING, STATES.RUNNING, STATES.TERMINATED] :=
  C3_happy_path_states envAllOK (MsgVal.payload 123 1) (MsgVal.resp Response.OK)
    (MsgVal.resp Response.OK) [] (by decide) (by decide) (by decide) (by decide)
    (by decide) (by decide) (by decide)

/-- C4: for each command INIT, START, END whose state update succeeded,
when the Manager responds with the `ERROR` sentinel the loop forwards
that very value on the Orchestrator-facing out queue and only afterwards
raises SIGTERM (the forced-termination action), returning `ERROR`: in
the resulting trace the `orchSend` of the `ERROR` response precedes the
`sigterm` event. -/
theorem C4_manager_error_forwarded (env : Env) (m : Machine) (c : SteeringCommands)
    (rest pend : List MsgVal)
    (hupd : env.updateRes (targetState c) ≠ Response.ERROR)
    (hmgr : m.mgrResponses = MsgVal.resp Response.ERROR :: pend) :
    fetch_and_execute_steering_commands env m (MsgVal.cmd c :: rest) =
      (HandlerOutcome.ret Response.ERROR,
       { st := stAfter c m.st
         tr := m.tr ++ [Ev.recvCmd (MsgVal.cmd c)] ++ preSendEvs env c ++
               [Ev.orchSend (MsgVal.resp Response.ERROR), Ev.sigterm]
         mgrResponses := pend }) := by
  have h2 := resp_eq_ok _ hupd
  cases c <;>
    simp_all [targetState, fetch_and_execute_steering_commands,
      command_execution_choices, runHandler, recvM, execute_init_command,
      execute_start_command, execute_end_command, update_local_state,
      send_command_to_application_manager, receive_response_from_application_manager,
      send_response_to_orchestrator, command_execution_response,
      terminate_with_error, stAfter, preSendEvs]

/-- C4 witness: the START command answered by `ERROR` after a successful
INIT, in the all-OK environment. -/
theorem C4_manager_error_forwarded_witness :
    fetch_and_execute_steering_commands envAllOK
        (companion_init [MsgVal.resp Response.ERROR])
        [MsgVal.cmd SteeringCommands.START] =
      (HandlerOutcome.ret Response.ERROR,
       { st := stAfter SteeringCommands.START (companion_init [MsgVal.resp Response.ERROR]).st
         tr := (companion_init [MsgVal.resp Response.ERROR]).tr ++
               [Ev.recvCmd (MsgVal.cmd SteeringCommands.START)] ++
               preSendEvs envAllOK SteeringCommands.START ++
               [Ev.orchSend (MsgVal.resp Response.ERROR), Ev.sigterm]
         mgrResponses := [] }) :=
  C4_manager_error_forwarded envAllOK (companion_init [MsgVal.resp Response.ERROR])
    SteeringCommands.START [] [] (by decide) rfl

/-- C5: whenever `FATAL` is received on the Orchestrator inbound channel
— after any machine history `m`, so in particular as the first value —
the loop performs no registry update and sends nothing on either Manager
channel in that iteration (the only events added are the receive itself
and the SIGTERM of forced termination) and terminates with `ERROR`. -/
theorem C5_fatal_preempts (env : Env) (m : Machine) (rest : List MsgVal) :
    fetch_and_execute_steering_commands env m (MsgVal.event EVENT.FATAL :: rest) =
      (HandlerOutcome.ret Response.ERROR,
       { m with tr := m.tr ++ [Ev.recvCmd (MsgVal.event EVENT.FATAL), Ev.sigterm] }) := by
  simp [fetch_and_execute_steering_commands, recvM, command_execution_choices,
    runHandler, handle_fatal_event, terminate_with_error]

/-- C6: END is the only command whose successful execution terminates
the dispatch loop with success.  First conjunct: a loop run that returns
`OK` had END among its inbound values (no other value can end the loop
successfully).  Second conjunct: a handler result of `ERROR` — for any
dispatched value, END included — forces termination with failure and
SIGTERM.  Third conjunct: for a dispatched value other than END, a
successful handler result continues the loop. -/
theorem C6_end_uniqueness :
    (∀ (env : Env) (m : Machine) (inbound : List MsgVal) (mfin : Machine),
      fetch_and_execute_steering_commands env m inbound =
        (HandlerOutcome.ret Response.OK, mfin) →
      MsgVal.cmd SteeringCommands.END ∈ inbound) ∧
    (∀ (env : Env) (m : Machine) (v : MsgVal) (h : Handler) (rest : List MsgVal),
      command_execution_choices v = some h →
      (runHandler h env (recvM m v)).1 = HandlerOutcome.ret Response.ERROR →
      fetch_and_execute_steering_commands env m (v :: rest) =
        (HandlerOutcome.ret Response.ERROR,
         { (runHandler h env (recvM m v)).2 with
           tr := (runHandler h env (recvM m v)).2.tr ++ [Ev.sigterm] })) ∧
    (∀ (env : Env) (m : Machine) (v : MsgVal) (h : Handler) (rest : List MsgVal)
       (r : Response),
      v ≠ MsgVal.cmd SteeringCommands.END →
      command_execution_choices v = some h →
      (runHandler h env (recvM m v)).1 = HandlerOutcome.ret r →
      r ≠ Response.ERROR →
      fetch_and_execute_steering_commands env m (v :: rest) =
        fetch_and_execute_steering_commands env (runHandler h env (recvM m v)).2 rest) := by
  refine ⟨?_, ?_, ?_⟩
  · intro env m inbound
    induction inbound generalizing m with
    | nil =>
      intro mfin hrun
      simp [fetch_and_execute_steering_commands] at hrun
    | cons v rest ih =>
      intro mfin hrun
      rcases hcv : command_execution_choices v with _ | h
      · rw [fetch_cons_none env m v rest hcv] at hrun
        simp at hrun
      · rcases hrh : runHandler h env (recvM m v) with ⟨out, m1⟩
        cases out with
        | ret r =>
          rw [fetch_cons_ret env m v rest h r m1 hcv hrh] at hrun
          by_cases hr : r = Response.ERROR
          · rw [if_pos hr] at hrun
            simp at hrun
          · rw [if_neg hr] at hrun
            by_cases hv : v = MsgVal.cmd SteeringCommands.END
            · exact hv ▸ List.mem_cons_self _ _
            · rw [if_neg hv] at hrun
              exact List.mem_cons_of_mem _ (ih m1 mfin hrun)
        | raised e =>
          rw [fetch_cons_raised env m v rest h e m1 hcv hrh] at hrun
          simp at hrun
        | blocked =>
          rw [fetch_cons_blocked env m v rest h m1 hcv hrh] at hrun
          simp at hrun
  · intro env m v h rest hcv hret
    rcases hrh : runHandler h env (recvM m v) with ⟨out, m1⟩
    rw [hrh] at hret
    cases out with
    | ret r =>
      have hr : r = Response.ERROR := by simpa using hret
      subst hr
      rw [fetch_cons_ret env m v rest h Response.ERROR m1 hcv hrh, if_pos rfl]
    | raised e => simp at hret
    | blocked => simp at hret
  · intro env m v h rest r hv hcv hret hr
    rcases hrh : runHandler h env (recvM m v) with ⟨out, m1⟩
    rw [hrh] at hret
    cases out with
    | ret r0 =>
      have hr0 : r0 = r := by simpa using hret
      subst hr0
      rw [fetch_cons_ret env m v rest h r0 m1 hcv hrh, if_neg hr, if_neg hv]
    | raised e => simp at hret
    | blocked => simp at hret

/-- C6 witness: a loop run returning `OK` on the inbound sequence
consisting of the single END command. -/
theorem C6_end_uniqueness_witness :
    MsgVal.cmd SteeringCommands.END ∈ [MsgVal.cmd SteeringCommands.END] :=
  C6_end_uniqueness.1 envAllOK (companion_init [MsgVal.resp Response.OK])
    [MsgVal.cmd SteeringCommands.END]
    (fetch_and_execute_steering_commands envAllOK
      (companion_init [MsgVal.resp Response.OK]) [MsgVal.cmd SteeringCommands.END]).2
    (by decide)

/-- C7: the Registration-Complete Flag.  First conjunct: over a whole
Companion lifetime (construction plus `run`), the `flagSet` event occurs
exactly once when `register` succeeds and never when it fails (so it is
set iff registration succeeded, and at most once), and the final
`is_registered` state agrees.  Second conjunct: when `register`
succeeds, the bootstrap trace sets the flag strictly before the
`find_by_id` fetch of the registration handle.  Third conjunct: when
`register` fails, the flag is never set. -/
theorem C7_registration_flag :
    (∀ (env : Env) (pending inbound : List MsgVal),
      ((run env (companion_init pending) inbound).2.tr.count Ev.flagSet =
        if env.registerResult = Response.ERROR then 0 else 1) ∧
      ((run env (companion_init pending) inbound).2.st.is_registered = true ↔
        env.registerResult ≠ Response.ERROR)) ∧
    (∀ (env : Env) (m : Machine), env.registerResult ≠ Response.ERROR →
      set_up_runtime env m =
        (Response.OK,
         { st := { m.st with is_registered := true
                             ac_registered_component_service := some env.findByIdResult
                             communicator := true }
           tr := m.tr ++ [Ev.affinitySet env.affinityResult,
                          Ev.regRegister STATES.READY env.registerResult,
                          Ev.flagSet, Ev.findById]
           mgrResponses := m.mgrResponses })) ∧
    (∀ (env : Env) (m : Machine), env.registerResult = Response.ERROR →
      set_up_runtime env m =
        (Response.ERROR,
         { m with tr := m.tr ++ [Ev.affinitySet env.affinityResult,
                                 Ev.regRegister STATES.READY Response.ERROR] })) := by
  refine ⟨?_, fun env m h => set_up_runtime_ok_eq env m h,
    fun env m h => set_up_runtime_error_eq env m h⟩
  intro env pending inbound
  by_cases hreg : env.registerResult = Response.ERROR
  · constructor
    · simp [run, set_up_runtime_error_eq env _ hreg, hreg, companion_init]
    · simp [run, set_up_runtime_error_eq env _ hreg, hreg, companion_init]
  · have hsu := set_up_runtime_ok_eq env (companion_init pending) hreg
    obtain ⟨t, htr, hte, hpres⟩ :=
      fetch_extends env inbound (set_up_runtime env (companion_init pending)).2
    have hnot : Ev.flagSet ∉ t := fun hmem => (hte _ hmem).1 rfl
    have hrun : run env (companion_init pending) inbound =
        fetch_and_execute_steering_commands env
          (set_up_runtime env (companion_init pending)).2 inbound := by
      simp [run, hsu]
    constructor
    · rw [hrun, htr, hsu]
      simp [companion_init, hreg, List.count_append, List.count_eq_zero.mpr hnot,
        List.count_cons]
    · rw [hrun, hpres, hsu]
      simp [hreg]

/-- C7 witness: bootstrap in the all-OK environment sets the flag before
fetching the handle. -/
theorem C7_registration_flag_witness :
    set_up_runtime envAllOK (companion_init []) =
      (Response.OK,
       { st := { (companion_init []).st with
                 is_registered := true
                 ac_registered_component_service := some envAllOK.findByIdResult
                 communicator := true }
         tr := (companion_init []).tr ++
               [Ev.affinitySet envAllOK.affinityResult,
                Ev.regRegister STATES.READY envAllOK.registerResult,
                Ev.flagSet, Ev.findById]
         mgrResponses := (companion_init []).mgrResponses }) :=
  C7_registration_flag.2.1 envAllOK (companion_init []) (by decide)

/-- C8: when `register` fails at bootstrap, `run` returns `ERROR`, the
command loop is never entered (no receive event is in the trace), and —
unlike the dispatch loop's failure path — no SIGTERM is raised. -/
theorem C8_register_failure_aborts (env : Env) (pending inbound : List MsgVal)
    (h : env.registerResult = Response.ERROR) :
    run env (companion_init pending) inbound =
      (HandlerOutcome.ret Response.ERROR,
       { st := (companion_init pending).st
         tr := [Ev.affinitySet env.affinityResult, Ev.regRegister STATES.READY Response.ERROR]
         mgrResponses := pending }) ∧
    Ev.sigterm ∉ (run env (companion_init pending) inbound).2.tr ∧
    ∀ v, Ev.recvCmd v ∉ (run env (companion_init pending) inbound).2.tr := by
  simp [run, set_up_runtime, h, companion_init]

/-- C8 witness: the concrete environment whose `register` call fails. -/
theorem C8_register_failure_aborts_witness :
    run envRegisterFails (companion_init []) [MsgVal.cmd SteeringCommands.INIT] =
      (HandlerOutcome.ret Response.ERROR,
       { st := (companion_init []).st
         tr := [Ev.affinitySet envRegisterFails.affinityResult,
                Ev.regRegister STATES.READY Response.ERROR]
         mgrResponses := [] }) :=
  (C8_register_failure_aborts envRegisterFails [] [MsgVal.cmd SteeringCommands.INIT] rfl).1

/-- C9: the dispatch table covers exactly the three steering commands
and the `FATAL` event; any other inbound value makes the dictionary
lookup raise `KeyError`, so the loop neither continues nor reaches its
own termination branches. -/
theorem C9_dispatch_keyerror :
    (∀ v : MsgVal, command_execution_choices v = none ↔
      (v ≠ MsgVal.cmd SteeringCommands.INIT ∧ v ≠ MsgVal.cmd SteeringCommands.START ∧
       v ≠ MsgVal.cmd SteeringCommands.END ∧ v ≠ MsgVal.event EVENT.FATAL)) ∧
    ∀ (env : Env) (m : Machine) (v : MsgVal) (rest : List MsgVal),
      command_execution_choices v = none →
      fetch_and_execute_steering_commands env m (v :: rest) =
        (HandlerOutcome.raised PyError.keyError, recvM m v) := by
  constructor
  · intro v
    cases v with
    | resp r => simp [command_execution_choices]
    | payload p s => simp [command_execution_choices]
    | event e => cases e <;> simp [command_execution_choices]
    | cmd c => cases c <;> simp [command_execution_choices]
  · intro env m v rest h
    simp [fetch_and_execute_steering_commands, h]

/-- C9 witness: a bare `OK` response value arriving on the command
channel is not dispatchable. -/
theorem C9_dispatch_keyerror_witness :
    fetch_and_execute_steering_commands envAllOK (companion_init [])
        [MsgVal.resp Response.OK] =
      (HandlerOutcome.raised PyError.keyError,
       recvM (companion_init []) (MsgVal.resp Response.OK)) :=
  C9_dispatch_keyerror.2 envAllOK (companion_init []) (MsgVal.resp Response.OK) [] rfl

/-- C10: once `register` succeeds, bootstrap returns `OK` for every
environment — in particular for every possible `find_by_id` result,
which is stored into `__ac_registered_component_service` without any
error check. -/
theorem C10_find_by_id_unchecked (env : Env) (m : Machine)
    (h : env.registerResult ≠ Response.ERROR) :
    (set_up_runtime env m).1 = Response.OK ∧
    (set_up_runtime env m).2.st.ac_registered_component_service = some env.findByIdResult := by
  simp [set_up_runtime, resp_eq_ok _ h]

/-- C10 witness: bootstrap in the all-OK environment. -/
theorem C10_find_by_id_unchecked_witness :
    (set_up_runtime envAllOK (companion_init [])).1 = Response.OK ∧
    (set_up_runtime envAllOK (companion_init [])).2.st.ac_registered_component_service =
      some envAllOK.findByIdResult :=
  C10_find_by_id_unchecked envAllOK (companion_init []) (by decide)

end AppCompanion
